import Mathlib

/- Shallow embedding of `src/main.py` (SigNoz-FlaskAPI): a Flask coffee-menu
   CRUD service instrumented with OpenTelemetry tracing, structured log
   shipping to a SigNoz collector, and a Prometheus request counter.
   Pure data is embedded directly; the per-request mutable state (the menu
   list and the Prometheus counter) is threaded explicitly through an
   `AppState`; the network call of the log shipper is represented by its
   outcome (`PostOutcome`), supplied as an explicit parameter. -/

namespace SigNozFlask

/-- Menu item, `{"id": ..., "name": ..., "price": ...}` in `main.py`.
Prices are rationals (the Python literals 2.5 etc. are exact decimals). -/
structure Coffee where
  id : Nat
  name : String
  price : ℚ
deriving DecidableEq, Repr

/-- Seed menu `coffees` of `main.py` lines 43-48. -/
def initialCoffees : List Coffee :=
  [⟨1, "Espresso", 5/2⟩, ⟨2, "Latte", 7/2⟩, ⟨3, "Cappuccino", 3⟩, ⟨4, "Chai", 3/2⟩]

/-- JSON body of a POST/PUT request: each of `name` / `price` may be absent.
Embeds the Python dict `request.get_json()` restricted to the two keys the
handlers read. -/
structure CoffeeBody where
  name : Option String
  price : Option ℚ
deriving DecidableEq, Repr

/-- Python exceptions the handlers can raise: `data["name"]` on a dict
missing the key raises `KeyError`. -/
inductive PyError where
  | keyError (key : String)
deriving DecidableEq, Repr

/-- Body of an HTTP response produced by a handler. -/
inductive RespBody where
  | item (c : Coffee)
  | menu (cs : List Coffee)
  | msg (s : String)
  | err (s : String)
deriving DecidableEq, Repr

/-- HTTP response: status code plus JSON body. -/
structure Resp where
  status : Nat
  body : RespBody
deriving DecidableEq, Repr

/-- Ambient OpenTelemetry span context: the 128-bit trace id and 64-bit span
id of the span that is current at the call site, or `none` when no span is
active. -/
structure SpanContext where
  trace_id : Nat
  span_id : Nat
deriving DecidableEq, Repr

/-- Python `format(n, '0{w}x')`: lowercase hex rendering of `n`, left-padded
with zeros to width `w`. -/
def pyFormatHex (width n : Nat) : String :=
  let ds := Nat.toDigits 16 n
  String.mk (List.replicate (width - ds.length) '0' ++ ds)

/-- Embeds `get_trace_id` (main.py lines 50-53).  With an active span the
span context's 128-bit trace id is rendered as 32 lowercase hex characters;
with no active span the zero-filled fallback string is returned (in the
Python, `trace.get_current_span()` then yields an invalid span whose ids are
0, so the rendered value is the same 32-zero string). -/
def get_trace_id (ctx : Option SpanContext) : String :=
  match ctx with
  | some sc => pyFormatHex 32 sc.trace_id
  | none => "00000000000000000000000000000000"

/-- Embeds `get_span_id` (main.py lines 55-58): 16 hex characters, same
zero fallback. -/
def get_span_id (ctx : Option SpanContext) : String :=
  match ctx with
  | some sc => pyFormatHex 16 sc.span_id
  | none => "0000000000000000"

/-- Embeds the `severity_map.get(level, 4)` lookup of `send_log_to_signoz`
(main.py lines 83-85, 92): DEBUG=1, INFO=4, WARN=8, ERROR=16, CRITICAL=24,
default 4. -/
def severityNumber (level : String) : Nat :=
  if level = "DEBUG" then 1
  else if level = "INFO" then 4
  else if level = "WARN" then 8
  else if level = "ERROR" then 16
  else if level = "CRITICAL" then 24
  else 4

/-- The structured log record `log_entry` built by `send_log_to_signoz`
(main.py lines 87-102). -/
structure LogEntry where
  trace_id : String
  span_id : String
  trace_flags : Nat
  severity_text : String
  severity_number : Nat
  attr_method : String
  attr_path : String
  res_host : String
  res_namespace : String
  message : String
deriving DecidableEq, Repr

/-- Outcome of the single `requests.post` network attempt: either the
transport fails (connection error, timeout, ... — `requests.post` raises a
`RequestException`) or the collector answers with some HTTP status code. -/
inductive PostOutcome where
  | transportError
  | status (code : Nat)
deriving DecidableEq, Repr

/-- Whether `response.raise_for_status()` raises: it raises `HTTPError`
(a subclass of `RequestException`) exactly for 4xx and 5xx status codes. -/
def raise_for_status (code : Nat) : Bool :=
  decide (400 ≤ code ∧ code < 600)

/-- Observable behaviour of one `send_log_to_signoz` call towards its caller
and the local diagnostic log: how many network POSTs were made, whether an
exception escaped to the caller, and whether an error line was written to
the local logger. -/
structure ShipResult where
  attempts : Nat
  raised : Bool
  errorLoggedLocally : Bool
deriving DecidableEq, Repr

/-- Embeds `send_log_to_signoz` (main.py lines 76-108).  It builds the log
entry from the ambient span context and request attributes, performs exactly
one POST of `[log_entry]` to the collector, and wraps the attempt in
`try/except requests.exceptions.RequestException`: a transport error, and
the `HTTPError` raised by `raise_for_status` on a 4xx/5xx answer, are both
`RequestException`s, hence caught and logged via `logger.error`; nothing is
re-raised and no second attempt is made. -/
def send_log_to_signoz (level message : String) (ctx : Option SpanContext)
    (method path host : String) (outcome : PostOutcome) : LogEntry × ShipResult :=
  let entry : LogEntry :=
    { trace_id := get_trace_id ctx
      span_id := get_span_id ctx
      trace_flags := 1
      severity_text := level
      severity_number := severityNumber level
      attr_method := method
      attr_path := path
      res_host := host
      res_namespace := "prod"
      message := message }
  let result : ShipResult :=
    match outcome with
    | .transportError => ⟨1, false, true⟩
    | .status code =>
      if raise_for_status code then ⟨1, false, true⟩ else ⟨1, false, false⟩
  (entry, result)

/-- A delivery is considered failed when the transport errored or the
collector returned an error status (the statuses for which
`raise_for_status` raises). -/
def postFailed : PostOutcome → Bool
  | .transportError => true
  | .status code => raise_for_status code

/-- Embeds `add_coffee` (main.py lines 134-141).  `data["name"]` and
`data["price"]` are plain subscripts: a missing key raises `KeyError`
(modelled as `Except.error`).  On success the new item gets
`id = len(coffees) + 1`, is appended, and is returned with status 201. -/
def add_coffee (coffees : List Coffee) (data : CoffeeBody) :
    Except PyError (List Coffee × Resp) :=
  match data.name with
  | none => .error (.keyError ("name"))
  | some n =>
    match data.price with
    | none => .error (.keyError ("price"))
    | some p =>
      let new_coffee : Coffee := ⟨coffees.length + 1, n, p⟩
      .ok (coffees ++ [new_coffee], ⟨201, .item new_coffee⟩)

/-- Embeds `next((c for c in coffees if c["id"] == coffee_id), None)`:
the first item with the given id, if any. -/
def findCoffee (coffees : List Coffee) (coffee_id : Nat) : Option Coffee :=
  coffees.find? (fun c => c.id == coffee_id)

/-- Field merge of `update_coffee` (main.py lines 159-160):
`data.get("name", coffee["name"])` and `data.get("price", coffee["price"])`
— each supplied field overwrites, each omitted field keeps its prior value. -/
def mergeCoffee (c : Coffee) (data : CoffeeBody) : Coffee :=
  { c with name := data.name.getD c.name, price := data.price.getD c.price }

/-- In-place mutation of the first matching dict in the Python list: the
first item whose id matches is replaced by its merge, all other items (and
all positions) are untouched. -/
def updateFirst (coffees : List Coffee) (coffee_id : Nat) (data : CoffeeBody) :
    List Coffee :=
  match coffees with
  | [] => []
  | c :: rest =>
    if c.id == coffee_id then mergeCoffee c data :: rest
    else c :: updateFirst rest coffee_id data

/-- Embeds `update_coffee` (main.py lines 152-162): unknown id gives a 404
error response and no mutation; otherwise the first matching item is merged
with the supplied fields in place and returned with status 200. -/
def update_coffee (coffees : List Coffee) (coffee_id : Nat) (data : CoffeeBody) :
    List Coffee × Resp :=
  match findCoffee coffees coffee_id with
  | none => (coffees, ⟨404, .err ("Coffee not found")⟩)
  | some c => (updateFirst coffees coffee_id data, ⟨200, .item (mergeCoffee c data)⟩)

/-- Embeds `delete_coffee` (main.py lines 164-170):
`coffees = [c for c in coffees if c["id"] != coffee_id]` — keeps every item
whose id differs, in order, and always answers 200 with a confirmation. -/
def delete_coffee (coffees : List Coffee) (coffee_id : Nat) : List Coffee × Resp :=
  (coffees.filter (fun c => c.id != coffee_id), ⟨200, .msg ("Coffee deleted")⟩)

/-- Embeds `get_coffee` (main.py lines 143-150). -/
def get_coffee (coffees : List Coffee) (coffee_id : Nat) : Resp :=
  match findCoffee coffees coffee_id with
  | none => ⟨404, .err ("Coffee not found")⟩
  | some c => ⟨200, .item c⟩

/-- Embeds `get_coffees` (main.py lines 110-115). -/
def get_coffees (coffees : List Coffee) : Resp :=
  ⟨200, .menu coffees⟩

/-- Process-wide mutable state of the application: the in-memory menu and
the value of the Prometheus counter `http_requests_total` created at
main.py line 36 (a Prometheus counter starts at 0). -/
structure AppState where
  coffees : List Coffee
  requests_counter : Nat
deriving DecidableEq, Repr

/-- State at process start: seed menu, counter 0. -/
def initialState : AppState :=
  ⟨initialCoffees, 0⟩

/-- An inbound HTTP request, one constructor per route of `main.py`. -/
inductive Req where
  | getCoffees
  | addCoffee (body : CoffeeBody)
  | getCoffee (coffee_id : Nat)
  | updateCoffee (coffee_id : Nat) (body : CoffeeBody)
  | deleteCoffee (coffee_id : Nat)
  | metrics
deriving DecidableEq, Repr

/-- HTTP method of each route. -/
def Req.method : Req → String
  | .getCoffees => "GET"
  | .addCoffee _ => "POST"
  | .getCoffee _ => "GET"
  | .updateCoffee _ _ => "PUT"
  | .deleteCoffee _ => "DELETE"
  | .metrics => "GET"

/-- URL path of each route. -/
def Req.path : Req → String
  | .getCoffees => "/coffees"
  | .addCoffee _ => "/coffees"
  | .getCoffee cid => "/coffees/" ++ toString cid
  | .updateCoffee cid _ => "/coffees/" ++ toString cid
  | .deleteCoffee cid => "/coffees/" ++ toString cid
  | .metrics => "/metrics"

/-- Value exposed by the `/metrics` endpoint for `http_requests_total`:
`generate_latest()` (main.py line 175) renders the current value of the
process-wide counter. -/
def metricsValue (st : AppState) : Nat :=
  st.requests_counter

/-- Route dispatch: runs the matched handler on the current state.  An
uncaught `KeyError` in `add_coffee` is turned by Flask into a generic
500 Internal Server Error response with no mutation of the menu. -/
def dispatch (st : AppState) (req : Req) : AppState × Resp :=
  match req with
  | .getCoffees => (st, get_coffees st.coffees)
  | .addCoffee body =>
    match add_coffee st.coffees body with
    | .ok (cs, r) => ({ st with coffees := cs }, r)
    | .error _ => (st, ⟨500, .err ("Internal Server Error")⟩)
  | .getCoffee cid => (st, get_coffee st.coffees cid)
  | .updateCoffee cid body =>
    ({ st with coffees := (update_coffee st.coffees cid body).1 },
      (update_coffee st.coffees cid body).2)
  | .deleteCoffee cid =>
    ({ st with coffees := (delete_coffee st.coffees cid).1 },
      (delete_coffee st.coffees cid).2)
  | .metrics => (st, ⟨200, .msg (toString (metricsValue st))⟩)

/-- Ambient environment of one request's observability calls: the span
context current at hook time, the `HOSTNAME` resolution, and the outcomes
of the pre- and post-hook collector POSTs. -/
structure Ambient where
  ctx : Option SpanContext
  host : String
  preOutcome : PostOutcome
  postOutcome : PostOutcome

/-- Embeds the `before_request` hook `log_request` (main.py lines 60-65):
it formats `"Incoming request: <METHOD> <URL>"`, writes a local log line and
ships the record via `send_log_to_signoz`.  Its body contains no call to
`requests_counter.add`, so the application state — the counter included —
is returned unchanged. -/
def log_request (st : AppState) (req : Req) (amb : Ambient) :
    AppState × (LogEntry × ShipResult) :=
  let log_message := "Incoming request: " ++ req.method ++ " " ++ req.path
  (st, send_log_to_signoz ("INFO") log_message amb.ctx req.method req.path
        amb.host amb.preOutcome)

/-- Embeds the `after_request` hook `log_response` (main.py lines 67-73):
formats `"Response: <status_code> for <URL>"`, ships it, and returns the
response unchanged; the application state is untouched. -/
def log_response (st : AppState) (resp : Resp) (req : Req) (amb : Ambient) :
    AppState × Resp × (LogEntry × ShipResult) :=
  let log_message := "Response: " ++ toString resp.status ++ " for " ++ req.path
  (st, resp,
    send_log_to_signoz ("INFO") log_message amb.ctx req.method req.path
      amb.host amb.postOutcome)

/-- One full request through the Flask pipeline: pre-hook, route dispatch,
post-hook. -/
def handle_request (st : AppState) (req : Req) (amb : Ambient) : AppState × Resp :=
  let st1 := (log_request st req amb).1
  let st2 := (dispatch st1 req).1
  let resp := (dispatch st1 req).2
  let post := log_response st2 resp req amb
  (post.1, post.2.1)

/-- State transition of one handled request (response discarded). -/
def step (amb : Ambient) (st : AppState) (req : Req) : AppState :=
  (handle_request st req amb).1

/-- Ids-bounded invariant: every id currently in the menu is at most the
menu's length.  It holds for the seed menu and is preserved by creations;
it is what makes the freshly assigned id `length + 1` fresh. -/
def idsBounded (menu : List Coffee) : Bool :=
  menu.all (fun c => decide (c.id ≤ menu.length))

/- Helper lemmas (shared, not tied to any single claim). -/

lemma filter_idem (p : Coffee → Bool) (l : List Coffee) :
    (l.filter p).filter p = l.filter p := by
  induction l with
  | nil => rfl
  | cons hd tl ih =>
    cases h : p hd with
    | true => simp [List.filter_cons, h, ih]
    | false => simp [List.filter_cons, h, ih]

lemma length_filter_ne_add_countP (l : List Coffee) (cid : Nat) :
    (l.filter (fun c => c.id != cid)).length
      + l.countP (fun c => c.id == cid) = l.length := by
  induction l with
  | nil => rfl
  | cons hd tl ih =>
    cases h : hd.id == cid with
    | true =>
      simp [List.filter_cons, List.countP_cons, h, bne] at ih ⊢
      omega
    | false =>
      simp [List.filter_cons, List.countP_cons, h, bne] at ih ⊢
      omega

lemma updateFirst_map_id (l : List Coffee) (cid : Nat) (data : CoffeeBody) :
    (updateFirst l cid data).map Coffee.id = l.map Coffee.id := by
  induction l with
  | nil => rfl
  | cons hd tl ih =>
    cases h : hd.id == cid with
    | true => simp [updateFirst, h, mergeCoffee]
    | false => simp [updateFirst, h, ih]

lemma updateFirst_getElem_ne (l : List Coffee) (cid : Nat) (data : CoffeeBody) :
    ∀ (i : Nat) (c : Coffee), l[i]? = some c → c.id ≠ cid →
      (updateFirst l cid data)[i]? = some c := by
  induction l with
  | nil => intro i c h; simp at h
  | cons hd tl ih =>
    intro i c hc hne
    cases i with
    | zero =>
      simp only [List.getElem?_cons_zero, Option.some.injEq] at hc
      subst hc
      cases h : hd.id == cid with
      | true =>
        exact absurd (by simpa using h) hne
      | false =>
        simp [updateFirst, h]
    | succ n =>
      simp only [List.getElem?_cons_succ] at hc
      cases h : hd.id == cid with
      | true => simp [updateFirst, h, hc]
      | false => simpa [updateFirst, h] using ih n c hc hne

lemma findCoffee_updateFirst (l : List Coffee) (cid : Nat) (data : CoffeeBody)
    (c : Coffee) (h : findCoffee l cid = some c) :
    findCoffee (updateFirst l cid data) cid = some (mergeCoffee c data) := by
  induction l with
  | nil => simp [findCoffee] at h
  | cons hd tl ih =>
    cases hh : hd.id == cid with
    | true =>
      have hc : hd = c := by
        simpa [findCoffee, List.find?, hh] using h
      subst hc
      simp [updateFirst, hh, findCoffee, List.find?, mergeCoffee]
    | false =>
      have h' : findCoffee tl cid = some c := by
        simpa [findCoffee, List.find?, hh] using h
      simpa [updateFirst, hh, findCoffee, List.find?] using ih h'

lemma dispatch_requests_counter (st : AppState) (req : Req) :
    (dispatch st req).1.requests_counter = st.requests_counter := by
  cases req with
  | addCoffee body =>
    rcases hres : add_coffee st.coffees body with e | ⟨cs, r⟩
    · simp [dispatch, hres]
    · simp [dispatch, hres]
  | getCoffees => rfl
  | getCoffee cid => rfl
  | updateCoffee cid body => rfl
  | deleteCoffee cid => rfl
  | metrics => rfl

lemma handle_request_fst (st : AppState) (req : Req) (amb : Ambient) :
    (handle_request st req amb).1 = (dispatch st req).1 :=
  rfl

lemma step_requests_counter (amb : Ambient) (st : AppState) (req : Req) :
    (step amb st req).requests_counter = st.requests_counter := by
  show (handle_request st req amb).1.requests_counter = st.requests_counter
  rw [handle_request_fst]
  exact dispatch_requests_counter st req

lemma foldl_step_requests_counter (amb : Ambient) (reqs : List Req) :
    ∀ st : AppState, (reqs.foldl (step amb) st).requests_counter
      = st.requests_counter := by
  induction reqs with
  | nil => intro st; rfl
  | cons r rs ih =>
    intro st
    calc (List.foldl (step amb) st (r :: rs)).requests_counter
        = (List.foldl (step amb) (step amb st r) rs).requests_counter := rfl
      _ = (step amb st r).requests_counter := ih (step amb st r)
      _ = st.requests_counter := step_requests_counter amb st r

/-- C1: the claim says the pre-hook increments the request counter once per
request so that `/metrics` reports N after N requests.  In the code the
counter `http_requests_total` is created but `add` is never called: the
`before_request` hook only logs and ships, so after any sequence of handled
requests the counter still reads 0 — in particular 0, not 1, after a single
GET /coffees. -/
theorem requests_counter_never_incremented (amb : Ambient) (reqs : List Req) :
    metricsValue (reqs.foldl (step amb) initialState) = 0 ∧
    metricsValue (step amb initialState Req.getCoffees) = 0 := by
  constructor
  · exact foldl_step_requests_counter amb reqs initialState
  · exact step_requests_counter amb initialState Req.getCoffees

/-- C2 counterexample: POST /coffees with body missing `name` does not
produce a 400 response with an explanatory message — `data["name"]` raises
`KeyError`, which Flask surfaces as a generic 500; the menu is unchanged. -/
theorem create_missing_name_not_400 :
    (dispatch initialState (Req.addCoffee ⟨none, some 4⟩)).2.status = 500 ∧
    (dispatch initialState (Req.addCoffee ⟨none, some 4⟩)).2.status ≠ 400 ∧
    (dispatch initialState (Req.addCoffee ⟨none, some 4⟩)).1 = initialState ∧
    add_coffee initialCoffees ⟨none, some 4⟩
      = Except.error (PyError.keyError ("name")) :=
  ⟨rfl, by decide, rfl, rfl⟩

/-- C2 amended: a POST body missing `name` or missing `price` makes
`add_coffee` raise a `KeyError` (surfaced by Flask as a generic 500 response,
not a 400 with an explanatory message); the menu is left unchanged. -/
theorem create_missing_field_raises (st : AppState) (body : CoffeeBody)
    (h : body.name = none ∨ body.price = none) :
    (∃ k, add_coffee st.coffees body = Except.error (PyError.keyError k)) ∧
    (dispatch st (Req.addCoffee body)).1 = st ∧
    (dispatch st (Req.addCoffee body)).2.status = 500 := by
  obtain ⟨n, p⟩ := body
  have hk : ∃ k, add_coffee st.coffees ⟨n, p⟩ = Except.error (PyError.keyError k) := by
    rcases h with h | h
    · cases h
      exact ⟨"name", rfl⟩
    · cases h
      cases n with
      | none => exact ⟨"name", rfl⟩
      | some s => exact ⟨"price", rfl⟩
  refine ⟨hk, ?_⟩
  obtain ⟨k, hk⟩ := hk
  constructor
  · simp [dispatch, hk]
  · simp [dispatch, hk]

/-- C2 witness: the amended theorem at the seed state with body
`price = 4` and no `name`. -/
theorem create_missing_field_raises_witness :
    (∃ k, add_coffee initialState.coffees ⟨none, some 4⟩
        = Except.error (PyError.keyError k)) ∧
    (dispatch initialState (Req.addCoffee ⟨none, some 4⟩)).1 = initialState ∧
    (dispatch initialState (Req.addCoffee ⟨none, some 4⟩)).2.status = 500 :=
  create_missing_field_raises initialState ⟨none, some 4⟩ (Or.inl rfl)

/-- C3: whenever the collector POST fails — transport error, or an error
status that makes `raise_for_status` raise — `send_log_to_signoz` logs the
error locally, raises nothing to its caller, and makes exactly one network
attempt. -/
theorem ship_failure_swallowed (level message : String) (ctx : Option SpanContext)
    (method path host : String) (o : PostOutcome) (h : postFailed o = true) :
    ((send_log_to_signoz level message ctx method path host o).2).errorLoggedLocally
        = true ∧
    ((send_log_to_signoz level message ctx method path host o).2).raised = false ∧
    ((send_log_to_signoz level message ctx method path host o).2).attempts = 1 := by
  cases o with
  | transportError => exact ⟨rfl, rfl, rfl⟩
  | status code =>
    have hc : raise_for_status code = true := h
    simp [send_log_to_signoz, hc]

/-- C3 witness: a shipping call whose network attempt fails with a
transport error. -/
theorem ship_failure_swallowed_witness :
    ((send_log_to_signoz ("INFO") ("msg") none ("GET") ("/coffees") ("localhost")
        PostOutcome.transportError).2).errorLoggedLocally = true ∧
    ((send_log_to_signoz ("INFO") ("msg") none ("GET") ("/coffees") ("localhost")
        PostOutcome.transportError).2).raised = false ∧
    ((send_log_to_signoz ("INFO") ("msg") none ("GET") ("/coffees") ("localhost")
        PostOutcome.transportError).2).attempts = 1 :=
  ship_failure_swallowed ("INFO") ("msg") none ("GET") ("/coffees") ("localhost")
    PostOutcome.transportError rfl

/-- Menu with a duplicate id, reachable from the seed state: delete ids
1, 2 and 3 (leaving only Chai with id 4), then create three items — the
third gets `id = 3 + 1 = 4`, duplicating Chai's id. -/
def dupMenu : List Coffee :=
  [⟨4, "Chai", 3/2⟩, ⟨2, "A", 1⟩, ⟨3, "B", 1⟩, ⟨4, "C", 1⟩]

/-- C4 counterexample: `dupMenu` is reached from the initial state by a
concrete request sequence, id 4 is present in it, yet DELETE /coffees/4
removes two items (length 4 to length 2), not exactly one. -/
theorem delete_removes_two_on_duplicate :
    ([Req.deleteCoffee 1, Req.deleteCoffee 2, Req.deleteCoffee 3,
        Req.addCoffee ⟨some "A", some 1⟩, Req.addCoffee ⟨some "B", some 1⟩,
        Req.addCoffee ⟨some "C", some 1⟩].foldl
      (step ⟨none, "localhost", PostOutcome.transportError,
        PostOutcome.transportError⟩) initialState).coffees = dupMenu ∧
    dupMenu.countP (fun c => c.id == 4) = 2 ∧
    dupMenu.length = 4 ∧
    (delete_coffee dupMenu 4).1.length = 2 := by
  refine ⟨?_, by decide, rfl, by decide⟩
  rfl

/-- C4 amended: when the given id occurs exactly once in the menu, DELETE
removes exactly one item; and (for any state) deleting is idempotent — a
second DELETE of the same id changes nothing further — and both calls
return status 200. -/
theorem delete_unique_one_and_idempotent (menu : List Coffee) (cid : Nat) :
    (menu.countP (fun c => c.id == cid) = 1 →
      (delete_coffee menu cid).1.length + 1 = menu.length) ∧
    (delete_coffee (delete_coffee menu cid).1 cid).1 = (delete_coffee menu cid).1 ∧
    (delete_coffee menu cid).2.status = 200 ∧
    (delete_coffee (delete_coffee menu cid).1 cid).2.status = 200 := by
  refine ⟨?_, ?_, rfl, rfl⟩
  · intro h
    have := length_filter_ne_add_countP menu cid
    rw [h] at this
    simpa [delete_coffee] using this
  · simp [delete_coffee, filter_idem]

/-- C4 witness: the amended theorem on the seed menu at id 4 (which occurs
exactly once there). -/
theorem delete_unique_one_and_idempotent_witness :
    (delete_coffee initialCoffees 4).1.length + 1 = initialCoffees.length ∧
    (delete_coffee (delete_coffee initialCoffees 4).1 4).1
        = (delete_coffee initialCoffees 4).1 ∧
    (delete_coffee initialCoffees 4).2.status = 200 ∧
    (delete_coffee (delete_coffee initialCoffees 4).1 4).2.status = 200 :=
  ⟨(delete_unique_one_and_idempotent initialCoffees 4).1 (by decide),
    (delete_unique_one_and_idempotent initialCoffees 4).2⟩

/-- C5 counterexample: ids are reused after a deletion.  From the seed,
creating an item assigns id 5; deleting id 5 and creating again assigns
id 5 a second time — the newly assigned id equals a previously assigned
one. -/
theorem id_reused_after_delete :
    (handle_request initialState (Req.addCoffee ⟨some "Mocha", some 4⟩)
        ⟨none, "localhost", PostOutcome.transportError,
          PostOutcome.transportError⟩).2
      = ⟨201, RespBody.item ⟨5, "Mocha", 4⟩⟩ ∧
    (handle_request
        (step ⟨none, "localhost", PostOutcome.transportError,
            PostOutcome.transportError⟩
          (step ⟨none, "localhost", PostOutcome.transportError,
              PostOutcome.transportError⟩ initialState
            (Req.addCoffee ⟨some "Mocha", some 4⟩))
          (Req.deleteCoffee 5))
        (Req.addCoffee ⟨some "Flat White", some 3⟩)
        ⟨none, "localhost", PostOutcome.transportError,
          PostOutcome.transportError⟩).2
      = ⟨201, RespBody.item ⟨5, "Flat White", 3⟩⟩ := by
  constructor
  · rfl
  · rfl

/-- C5 amended: as long as no deletion has occurred, the id assigned at
creation (`length + 1`) differs from every id in the menu, so creations
alone never produce two items with the same id; the `idsBounded` invariant
(every id at most the menu length) holds at the seed, is preserved by each
creation, and forces freshness.  After a deletion the invariant can break
and an id may be reused. -/
theorem create_fresh_id_without_deletes (menu : List Coffee) (n : String) (p : ℚ)
    (h : idsBounded menu = true) :
    add_coffee menu ⟨some n, some p⟩ =
      Except.ok (menu ++ [⟨menu.length + 1, n, p⟩],
        ⟨201, RespBody.item ⟨menu.length + 1, n, p⟩⟩) ∧
    menu.all (fun c => decide (c.id ≠ menu.length + 1)) = true ∧
    idsBounded (menu ++ [⟨menu.length + 1, n, p⟩]) = true := by
  simp only [idsBounded, List.all_eq_true, decide_eq_true_eq] at h
  refine ⟨rfl, ?_, ?_⟩
  · simp only [List.all_eq_true, decide_eq_true_eq]
    intro c hc
    have := h c hc
    omega
  · simp only [idsBounded, List.all_eq_true, decide_eq_true_eq]
    intro c hc
    rcases List.mem_append.mp hc with hc | hc
    · have := h c hc
      simp only [List.length_append, List.length_cons, List.length_nil]
      omega
    · simp only [List.mem_singleton] at hc
      subst hc
      simp only [List.length_append, List.length_cons, List.length_nil]
      omega

/-- C5 witness: the amended theorem on the seed menu, whose ids 1..4 are
bounded by its length 4. -/
theorem create_fresh_id_without_deletes_witness :
    idsBounded initialCoffees = true ∧
    (add_coffee initialCoffees ⟨some "Mocha", some 4⟩ =
        Except.ok (initialCoffees ++ [⟨initialCoffees.length + 1, "Mocha", 4⟩],
          ⟨201, RespBody.item ⟨initialCoffees.length + 1, "Mocha", 4⟩⟩) ∧
      initialCoffees.all
        (fun c => decide (c.id ≠ initialCoffees.length + 1)) = true ∧
      idsBounded (initialCoffees ++ [⟨initialCoffees.length + 1, "Mocha", 4⟩])
        = true) :=
  ⟨by decide, create_fresh_id_without_deletes initialCoffees "Mocha" 4 (by decide)⟩

/-- C6: a valid creation (body carrying both `name` and `price`) assigns
`id = (count before creation) + 1`, appends the new item at the last
position, and answers 201 with the created item as body. -/
theorem create_assigns_count_plus_one (menu : List Coffee) (body : CoffeeBody)
    (n : String) (p : ℚ) (hn : body.name = some n) (hp : body.price = some p) :
    add_coffee menu body =
      Except.ok (menu ++ [⟨menu.length + 1, n, p⟩],
        ⟨201, RespBody.item ⟨menu.length + 1, n, p⟩⟩) ∧
    (menu ++ [(⟨menu.length + 1, n, p⟩ : Coffee)]).getLast?
      = some (⟨menu.length + 1, n, p⟩ : Coffee) := by
  obtain ⟨bn, bp⟩ := body
  cases hn
  cases hp
  exact ⟨rfl, by simp⟩

/-- C6 witness: the spec scenario shape on the 4-item seed menu — POST of
Mocha gives id 5, appended last, status 201. -/
theorem create_assigns_count_plus_one_witness :
    add_coffee initialCoffees ⟨some "Mocha", some (7/2)⟩ =
      Except.ok (initialCoffees ++ [⟨initialCoffees.length + 1, "Mocha", 7/2⟩],
        ⟨201, RespBody.item ⟨initialCoffees.length + 1, "Mocha", 7/2⟩⟩) ∧
    (initialCoffees ++ [(⟨initialCoffees.length + 1, "Mocha", 7/2⟩ : Coffee)]).getLast?
      = some (⟨initialCoffees.length + 1, "Mocha", 7/2⟩ : Coffee) :=
  create_assigns_count_plus_one initialCoffees ⟨some "Mocha", some (7/2)⟩
    "Mocha" (7/2) rfl rfl

/-- C7: updating a present id with a body supplying only `price` leaves the
item's `name` unchanged, and supplying only `name` leaves `price`
unchanged — both in the 200 response and in the stored menu item. -/
theorem update_partial_preserves_other_field (menu : List Coffee) (cid : Nat)
    (c : Coffee) (h : findCoffee menu cid = some c) (n : String) (p : ℚ) :
    (update_coffee menu cid ⟨none, some p⟩).2
        = ⟨200, RespBody.item (⟨c.id, c.name, p⟩ : Coffee)⟩ ∧
    (update_coffee menu cid ⟨some n, none⟩).2
        = ⟨200, RespBody.item (⟨c.id, n, c.price⟩ : Coffee)⟩ ∧
    findCoffee (update_coffee menu cid ⟨none, some p⟩).1 cid
        = some (⟨c.id, c.name, p⟩ : Coffee) ∧
    findCoffee (update_coffee menu cid ⟨some n, none⟩).1 cid
        = some (⟨c.id, n, c.price⟩ : Coffee) := by
  refine ⟨?_, ?_, ?_, ?_⟩
  · simp [update_coffee, h, mergeCoffee]
  · simp [update_coffee, h, mergeCoffee]
  · simpa [update_coffee, h, mergeCoffee] using
      findCoffee_updateFirst menu cid ⟨none, some p⟩ c h
  · simpa [update_coffee, h, mergeCoffee] using
      findCoffee_updateFirst menu cid ⟨some n, none⟩ c h

/-- C7 witness: PUT on the seed menu's id 2 (Latte, price 7/2): supplying
only a new price keeps the name, supplying only a new name keeps the
price. -/
theorem update_partial_preserves_other_field_witness :
    (update_coffee initialCoffees 2 ⟨none, some 4⟩).2
        = ⟨200, RespBody.item (⟨2, "Latte", 4⟩ : Coffee)⟩ ∧
    (update_coffee initialCoffees 2 ⟨some "Mocha", none⟩).2
        = ⟨200, RespBody.item (⟨2, "Mocha", 7/2⟩ : Coffee)⟩ ∧
    findCoffee (update_coffee initialCoffees 2 ⟨none, some 4⟩).1 2
        = some (⟨2, "Latte", 4⟩ : Coffee) ∧
    findCoffee (update_coffee initialCoffees 2 ⟨some "Mocha", none⟩).1 2
        = some (⟨2, "Mocha", 7/2⟩ : Coffee) :=
  update_partial_preserves_other_field initialCoffees 2 ⟨2, "Latte", 7/2⟩
    (by rfl) ("Mocha") 4

/-- C8: the Identity Provider is a pure read of the ambient span context:
with no active span both functions return the zero-filled fallback strings
(32 and 16 zero hex characters; the OpenTelemetry invalid span, whose ids
are 0, renders to the same strings), every record shipped outside a span
carries those fallback identifiers, and any two records shipped under the
same span context carry identical traceId/spanId values. -/
theorem identity_zero_fallback_and_per_span_constant :
    get_trace_id none = "00000000000000000000000000000000" ∧
    get_span_id none = "0000000000000000" ∧
    get_trace_id (some ⟨0, 0⟩) = "00000000000000000000000000000000" ∧
    get_span_id (some ⟨0, 0⟩) = "0000000000000000" ∧
    (∀ (level msg method path host : String) (o : PostOutcome),
      (send_log_to_signoz level msg none method path host o).1.trace_id
          = "00000000000000000000000000000000" ∧
      (send_log_to_signoz level msg none method path host o).1.span_id
          = "0000000000000000") ∧
    (∀ (ctx : Option SpanContext) (l1 m1 l2 m2 method path host : String)
        (o1 o2 : PostOutcome),
      (send_log_to_signoz l1 m1 ctx method path host o1).1.trace_id
          = (send_log_to_signoz l2 m2 ctx method path host o2).1.trace_id ∧
      (send_log_to_signoz l1 m1 ctx method path host o1).1.span_id
          = (send_log_to_signoz l2 m2 ctx method path host o2).1.span_id) :=
  ⟨rfl, rfl, by decide, by decide,
    fun _ _ _ _ _ _ => ⟨rfl, rfl⟩,
    fun _ _ _ _ _ _ _ _ _ _ => ⟨rfl, rfl⟩⟩

/-- C9: DELETE removes every item carrying the given id in a single call:
whatever the menu (duplicate ids included), no item of the resulting menu
has that id. -/
theorem delete_removes_all_matching (menu : List Coffee) (cid : Nat) :
    ((delete_coffee menu cid).1.all (fun c => c.id != cid)) = true := by
  simp only [delete_coffee, List.all_eq_true]
  intro c hc
  simpa using List.of_mem_filter hc

/-- C10: mutations preserve the relative order of the items they do not
remove: the deleted menu is a sublist of the prior menu (survivors keep
their order), and an update keeps every position's id in place and leaves
every non-matching item exactly where it was. -/
theorem mutations_preserve_order (menu : List Coffee) (cid : Nat)
    (body : CoffeeBody) :
    List.Sublist ((delete_coffee menu cid).1) menu ∧
    (update_coffee menu cid body).1.map Coffee.id = menu.map Coffee.id ∧
    ∀ (i : Nat) (c : Coffee), menu[i]? = some c → c.id ≠ cid →
      ((update_coffee menu cid body).1)[i]? = some c := by
  refine ⟨List.filter_sublist menu, ?_, ?_⟩
  · rcases h : findCoffee menu cid with _ | c0
    · simp [update_coffee, h]
    · simpa [update_coffee, h] using updateFirst_map_id menu cid body
  · intro i c hc hne
    rcases h : findCoffee menu cid with _ | c0
    · simpa [update_coffee, h] using hc
    · simpa [update_coffee, h] using
        updateFirst_getElem_ne menu cid body i c hc hne

/-- C10 witness: on the seed menu with id 2, the delete result is a sublist,
the update keeps all ids in place, and the non-matching item at index 0 is
untouched. -/
theorem mutations_preserve_order_witness :
    List.Sublist ((delete_coffee initialCoffees 2).1) initialCoffees ∧
    (update_coffee initialCoffees 2 ⟨none, some 4⟩).1.map Coffee.id
        = initialCoffees.map Coffee.id ∧
    ((update_coffee initialCoffees 2 ⟨none, some 4⟩).1)[0]?
        = some (⟨1, "Espresso", 5/2⟩ : Coffee) :=
  ⟨(mutations_preserve_order initialCoffees 2 ⟨none, some 4⟩).1,
    (mutations_preserve_order initialCoffees 2 ⟨none, some 4⟩).2.1,
    (mutations_preserve_order initialCoffees 2 ⟨none, some 4⟩).2.2 0
      ⟨1, "Espresso", 5/2⟩ rfl (by decide)⟩

end SigNozFlask
